import Mathlib

set_option maxRecDepth 16000

/-!
Verification of the Med-Chat-Bot retrieval / prompt-composition pipeline
(`app.py`, `utils/retrieval_qa.py`).

Python strings are modelled as `List Char`; Python exceptions as an
`Except PyErr` result; the remote completion client and the vector-store
similarity search (external effects) are passed in as explicit arguments.
-/

/-- Kinds of Python runtime exceptions relevant to this code base. -/
inductive PyErr where
  | valueError
  | keyError
  | typeError
  | runtimeError
deriving DecidableEq, Repr

/-- Whether an `Except` computation succeeded (no exception raised). -/
def exceptIsOk {α : Type} (e : Except PyErr α) : Bool :=
  match e with
  | Except.ok _ => true
  | Except.error _ => false

/-- Python's `in` test for strings: does `pat` occur as a contiguous
substring of `s`?  Structural recursion on `s`. -/
def containsSub (pat : List Char) : List Char → Bool
  | [] => pat.isEmpty
  | c :: rest => pat.isPrefixOf (c :: rest) || containsSub pat rest

/-- Python `str.lower` (ASCII range, which is all the keyword list uses). -/
def pyLower (s : List Char) : List Char := s.map Char.toLower

/-- Characters removed by Python's default `str.strip()`. -/
def isPySpace (c : Char) : Bool :=
  c == ' ' || c == '\t' || c == '\n' || c == '\r' || c == '\x0b' || c == '\x0c'

/-- Python `str.strip()`: drop leading and trailing whitespace. -/
def pyStrip (s : List Char) : List Char :=
  (((s.dropWhile isPySpace).reverse.dropWhile isPySpace)).reverse

/-- Python `str.replace old new`, fuelled so that it is structural
recursion (fuel `s.length` always suffices: each step consumes at least
one character of `s`).  Scans left to right; on a match emits `new` and
skips `old.length` characters. -/
def pyReplaceFuel (old new : List Char) : Nat → List Char → List Char
  | 0, s => s
  | _ + 1, [] => []
  | fuel + 1, c :: rest =>
      if old.isPrefixOf (c :: rest) then
        new ++ pyReplaceFuel old new fuel (rest.drop (old.length - 1))
      else
        c :: pyReplaceFuel old new fuel rest

/-- Python `s.replace(old, new)` (for non-empty `old`, as used here). -/
def pyReplace (old new s : List Char) : List Char :=
  pyReplaceFuel old new s.length s

/-- Decimal digits of a natural number, zero-padded to width 2
(the fractional part of a `%.2f` rendering). -/
def twoDigits (m : Nat) : List Char :=
  if m < 10 then '0' :: Nat.toDigits 10 m else Nat.toDigits 10 m

/-- Python `f"\x7bscore:.2f\x7d"` on an exact rational score: round the
value to a whole number of hundredths, ties to even (as float formatting
does), and render `<int>.<2 digits>`.  Works on `num`/`den` directly with
integer arithmetic. -/
def fmtFixed2 (q : ℚ) : List Char :=
  let a : Int := q.num * 100
  let b : Int := (q.den : Int)
  let f : Int := Int.fdiv a b
  let r : Int := Int.fmod a b
  let cents : Int :=
    if 2 * r < b then f
    else if b < 2 * r then f + 1
    else if f % 2 = 0 then f else f + 1
  let n : Nat := cents.natAbs
  let sign : List Char := if cents < 0 then ['-'] else []
  sign ++ Nat.toDigits 10 (n / 100) ++ '.' :: twoDigits (n % 100)


/-! ## `utils/retrieval_qa.py` -/

/-- The static prompt template returned by `create_medical_prompt_template`
(retrieval_qa.py lines 5-23), reproduced byte for byte (including the
mojibake bullet `â€¢` on guideline 6). -/
def create_medical_prompt_template : List Char :=
  ("You are an expert medical assistant with access to comprehensive medical knowledge.\n\nBased on the provided medical context, answer the user\x27s question clearly and accurately.\n\nGUIDELINES:\n1) Provide clear, well-structured responses.\n2) Use bullet points or numbered lists for complex information.\n3) Explain medical terms in simple language.\n4) Be specific and factual based on the context.\n5) If the context doesn\x27t contain relevant information, clearly state this.\n6) Don\x27t use + for bullet points and use â€¢ .\n\nMEDICAL CONTEXT:\n\x7bcontext\x7d\n\nUSER QUESTION: \x7bquestion\x7d\n\nRESPONSE:").data

/-- The template text before the `context` substitution point. -/
def prompt_before_context : List Char :=
  ("You are an expert medical assistant with access to comprehensive medical knowledge.\n\nBased on the provided medical context, answer the user\x27s question clearly and accurately.\n\nGUIDELINES:\n1) Provide clear, well-structured responses.\n2) Use bullet points or numbered lists for complex information.\n3) Explain medical terms in simple language.\n4) Be specific and factual based on the context.\n5) If the context doesn\x27t contain relevant information, clearly state this.\n6) Don\x27t use + for bullet points and use â€¢ .\n\nMEDICAL CONTEXT:\n").data

/-- The template text between the `context` and `question` substitution points. -/
def prompt_between : List Char := "\n\nUSER QUESTION: ".data

/-- The template text after the `question` substitution point. -/
def prompt_after_question : List Char := "\n\nRESPONSE:".data

/-- Python `str.format` over a template, with keyword values `vals`,
fuelled to be structural (fuel = template length suffices, since every
step consumes at least one template character).  `\x7b\x7b`/`\x7d\x7d`
are literal braces, `\x7bname\x7d` substitutes the looked-up value
verbatim (substituted values are never re-parsed), a stray brace is a
`ValueError`, an unknown name a `KeyError`. -/
def pyFormatFuel (vals : List (List Char × List Char)) :
    Nat → List Char → Except PyErr (List Char)
  | 0, _ => Except.error PyErr.runtimeError
  | _ + 1, [] => Except.ok []
  | fuel + 1, '\x7b' :: '\x7b' :: rest =>
      Except.map (fun t => '\x7b' :: t) (pyFormatFuel vals fuel rest)
  | fuel + 1, '\x7d' :: '\x7d' :: rest =>
      Except.map (fun t => '\x7d' :: t) (pyFormatFuel vals fuel rest)
  | fuel + 1, '\x7b' :: rest =>
      let name := rest.takeWhile (fun c => c != '\x7d')
      match rest.dropWhile (fun c => c != '\x7d') with
      | '\x7d' :: after =>
          match List.lookup name vals with
          | some v => Except.map (fun t => v ++ t) (pyFormatFuel vals fuel after)
          | none => Except.error PyErr.keyError
      | _ => Except.error PyErr.valueError
  | _ + 1, '\x7d' :: _ => Except.error PyErr.valueError
  | fuel + 1, c :: rest =>
      Except.map (fun t => c :: t) (pyFormatFuel vals fuel rest)

/-- Python `template.format(...)`. -/
def pyFormat (vals : List (List Char × List Char)) (template : List Char) :
    Except PyErr (List Char) :=
  pyFormatFuel vals template.length template

/-- Source line 54: `prompt_template.format(context=context, question=query)`. -/
def fillPrompt (context question : List Char) : Except PyErr (List Char) :=
  pyFormat [("context".data, context), ("question".data, question)]
    create_medical_prompt_template

/-- A similarity-search hit: `(text, score, metadata)` as returned by
`similarity_search`.  The score is modelled as an exact rational. -/
structure ScoredResult where
  text : List Char
  score : ℚ
  metadata : List (List Char × List Char)
deriving DecidableEq

/-- One formatted context block
(`f"[Source \x7bi\x7d - Relevance: \x7bscore:.2f\x7d]\n\x7btext.strip()\x7d"`,
retrieval_qa.py line 37). -/
def context_piece (i : Nat) (text : List Char) (score : ℚ) : List Char :=
  "[Source ".data ++ Nat.toDigits 10 i ++ " - Relevance: ".data ++
    fmtFixed2 score ++ "]\n".data ++ pyStrip text

/-- The `contexts` list built by the `for i, (text, score, metadata) in
enumerate(results, 1)` loop (retrieval_qa.py lines 35-38); `i` is the
1-based rank of the first element of `rs`. -/
def contextBlocks (i : Nat) : List ScoredResult → List (List Char)
  | [] => []
  | r :: rest => context_piece i r.text r.score :: contextBlocks (i + 1) rest

/-- The fixed sentinel returned when similarity search yields no results
(retrieval_qa.py line 32). -/
def no_context_sentinel : List Char :=
  "No relevant medical information found in the knowledge base.".data

/-- The fixed visual divider `"\n\n" + "="*50` (retrieval_qa.py line 40). -/
def retrieval_divider : List Char := '\n' :: '\n' :: List.replicate 50 '='

/-- Function `retrieve_relevant_context` (retrieval_qa.py lines 25-42), with the
external `similarity_search(query, k=top_k)` call hoisted out: `results`
is the list that call returned. -/
def retrieve_relevant_context (results : List ScoredResult) : List Char :=
  if results.isEmpty then no_context_sentinel
  else retrieval_divider ++ List.intercalate "\n\n".data (contextBlocks 1 results)

/-- The fixed apology returned from the `except` branch of
`generate_medical_response` (retrieval_qa.py line 78). -/
def apology_response : List Char :=
  ("I apologize, but I encountered an error while processing your medical question. Please try rephrasing your question or consult a healthcare professional directly.").data

/-- Function `format_medical_response` (retrieval_qa.py lines 80-95): remove `**`
then `*`, replace `\n\n\n` by `\n\n`, strip, then append the (empty)
disclaimer unless the text already ends with it. -/
def format_medical_response (response : List Char) : List Char :=
  let r1 := pyReplace "**".data [] response
  let r2 := pyReplace "*".data [] r1
  let r3 := pyReplace "\n\n\n".data "\n\n".data r2
  let r4 := pyStrip r3
  let disclaimer : List Char := []
  if (pyStrip disclaimer).isSuffixOf r4 then r4 else r4 ++ disclaimer

/-- Function `generate_medical_response` (retrieval_qa.py lines 44-78).  The two
external effects inside its `try` block are passed in explicitly:
`searchOutcome` is the outcome of the `similarity_search` call made by
`retrieve_relevant_context(query, top_k=4)`, and `completion` maps the
composed prompt to the outcome of the Groq chat-completion call (its
`.choices[0].message.content` on success).  Any raised step turns into
the fixed apology. -/
def generate_medical_response (query : List Char)
    (searchOutcome : Except PyErr (List ScoredResult))
    (completion : List Char → Except PyErr (List Char)) : List Char :=
  match searchOutcome with
  | Except.error _ => apology_response
  | Except.ok results =>
      match fillPrompt (retrieve_relevant_context results) query with
      | Except.error _ => apology_response
      | Except.ok prompt =>
          match completion prompt with
          | Except.error _ => apology_response
          | Except.ok response => format_medical_response response

/-- The exact prompt `generate_medical_response` sends to the completion
endpoint for retrieval results `results` and question `query`. -/
def promptFor (results : List ScoredResult) (query : List Char) : List Char :=
  prompt_before_context ++
    (retrieve_relevant_context results ++ (prompt_between ++ (query ++ prompt_after_question)))

/-- The keyword list of `validate_medical_query` (retrieval_qa.py lines 98-105). -/
def medical_indicators : List (List Char) :=
  ["symptom".data, "disease".data, "condition".data, "treatment".data, "medicine".data,
   "medication".data, "diagnosis".data, "doctor".data, "hospital".data, "pain".data,
   "fever".data, "infection".data, "medical".data, "health".data, "illness".data,
   "therapy".data, "surgery".data, "procedure".data, "blood".data, "heart".data,
   "lung".data, "brain".data, "liver".data, "kidney".data, "cancer".data,
   "diabetes".data, "hypertension".data, "pneumonia".data, "what is".data,
   "how to treat".data, "causes of".data, "prevention".data, "cure".data, "relief".data]

/-- Function `validate_medical_query` (retrieval_qa.py lines 97-108). -/
def validate_medical_query (query : List Char) : Bool :=
  medical_indicators.any (fun ind => containsSub ind (pyLower query))

/-! ## `app.py` -/

/-- Modelled from the spec: `similarity_search` lives in
`utils/vector_database.py`, which is not part of the provided sources.
Per spec §4.2 it performs a nearest-neighbor search "returning up to
`top_k` results ordered by descending relevance"; we model the store as
the query-ranked list of scored chunks, so the search returns its first
`k` elements. -/
def similarity_search (rankedStore : List ScoredResult) (k : Nat) : List ScoredResult :=
  rankedStore.take k

/-- Outcome of the `/query` Flask handler: HTTP 200 with
`\x7bquestion, answer\x7d`, HTTP 400 with an error message, or HTTP 500
with an error message. -/
inductive QueryResponse where
  | success (question answer : List Char)
  | badRequest (message : List Char)
  | serverError (message : List Char)
deriving DecidableEq

/-- Number of positional arguments passed to `generate_medical_response`
at the app.py line 80 call site:
`generate_medical_response(client, embeddings, vector_db, question)`. -/
def generate_call_site_args : Nat := 4

/-- Number of parameters of `generate_medical_response` as defined at
retrieval_qa.py line 44: `(query, groq_client)`. -/
def generate_def_params : Nat := 2

/-- The dynamic semantics of the app.py line 80 call: if the number of
arguments supplied does not match the callee signature, Python raises
`TypeError` before the callee body runs; otherwise the call returns the
callee's result. -/
def call_generate_medical_response (question : List Char)
    (searchOutcome : Except PyErr (List ScoredResult))
    (completion : List Char → Except PyErr (List Char)) : Except PyErr (List Char) :=
  if generate_call_site_args = generate_def_params then
    Except.ok (generate_medical_response question searchOutcome completion)
  else Except.error PyErr.typeError

/-- The `/query` route handler (app.py lines 67-87): strip the question,
reject empty, reject non-medical, then call the generator inside
`try/except`. -/
def query_route (question : List Char)
    (searchOutcome : Except PyErr (List ScoredResult))
    (completion : List Char → Except PyErr (List Char)) : QueryResponse :=
  let q := pyStrip question
  if q.isEmpty then QueryResponse.badRequest "No question provided".data
  else if !validate_medical_query q then QueryResponse.badRequest "Inappropriate query".data
  else
    match call_generate_medical_response q searchOutcome completion with
    | Except.ok answer => QueryResponse.success q answer
    | Except.error _ => QueryResponse.serverError "Internal server error".data

/-! ## Spec-side formulations and demo inputs -/

/-- The block pattern exactly as spec §8 words it:
`"[Source <n> - Relevance: <2-decimal float>]\n<text>"` with `<text>`
the trimmed chunk text. -/
def specBlock (n : Nat) (r : ScoredResult) : List Char :=
  "[Source ".data ++ Nat.toDigits 10 n ++ " - Relevance: ".data ++
    fmtFixed2 r.score ++ "]".data ++ '\n' :: pyStrip r.text

/-- A concrete retrieval hit used by witnesses. -/
def demoChunk : ScoredResult :=
  ⟨" Pneumonia is an infection of the lungs. ".data, Rat.divInt 87 100, []⟩

/-- A second concrete retrieval hit used by witnesses. -/
def demoChunk2 : ScoredResult :=
  ⟨"Fever and cough are common symptoms.".data, Rat.divInt 3 4, []⟩

/-- A concrete two-element search result used by witnesses. -/
def demoResults : List ScoredResult := [demoChunk, demoChunk2]

/-! ## General lemmas about the string primitives -/

theorem containsSub_iff_isInfix (pat s : List Char) :
    containsSub pat s = true ↔ pat <:+: s := by
  induction s with
  | nil =>
      constructor
      · intro h
        cases pat with
        | nil => simp
        | cons a t => simp [containsSub, List.isEmpty] at h
      · intro h
        have hp : pat = [] := List.infix_nil.mp h
        simp [containsSub, hp, List.isEmpty]
  | cons c rest ih =>
      simp only [containsSub, Bool.or_eq_true, ih, List.isPrefixOf_iff_prefix]
      exact (List.infix_cons_iff).symm

theorem pyReplaceFuel_eq_self (old new : List Char) (fuel : Nat) :
    ∀ s : List Char, ¬ old <:+: s → pyReplaceFuel old new fuel s = s := by
  induction fuel with
  | zero => intro s _; rfl
  | succ fuel ih =>
      intro s h
      match s with
      | [] => rfl
      | c :: rest =>
          have hpre : old.isPrefixOf (c :: rest) = false := by
            cases hp : old.isPrefixOf (c :: rest) with
            | false => rfl
            | true =>
                exact absurd (( List.isPrefixOf_iff_prefix).mp hp).isInfix h
          have hrest : ¬ old <:+: rest := fun hr =>
            h ((List.infix_cons_iff).mpr (Or.inr hr))
          simp [pyReplaceFuel, hpre, ih rest hrest]

theorem star_not_mem_replaceStar :
    ∀ (fuel : Nat) (s : List Char), s.length ≤ fuel →
      '*' ∉ pyReplaceFuel ['*'] [] fuel s := by
  intro fuel
  induction fuel with
  | zero =>
      intro s hs
      have : s = [] := List.eq_nil_of_length_eq_zero (Nat.le_zero.mp hs)
      subst this
      simp [pyReplaceFuel]
  | succ fuel ih =>
      intro s hs
      match s with
      | [] => simp [pyReplaceFuel]
      | c :: rest =>
          have hlen : rest.length ≤ fuel := Nat.le_of_succ_le_succ hs
          by_cases hc : c = '*'
          · subst hc
            have hpre : (['*'] : List Char).isPrefixOf ('*' :: rest) = true := by
              simp [List.isPrefixOf]
            simpa [pyReplaceFuel, hpre] using ih rest hlen
          · have hpre : (['*'] : List Char).isPrefixOf (c :: rest) = false := by
              simp [List.isPrefixOf]
              exact fun he => hc he.symm
            simp only [pyReplaceFuel, hpre, Bool.false_eq_true, if_false]
            intro hmem
            rcases List.mem_cons.mp hmem with h1 | h1
            · exact hc h1.symm
            · exact ih rest hlen h1

theorem not_mem_pyReplaceFuel (x : Char) (old new : List Char) (hnew : x ∉ new) :
    ∀ (fuel : Nat) (s : List Char), x ∉ s → x ∉ pyReplaceFuel old new fuel s := by
  intro fuel
  induction fuel with
  | zero => intro s hs; exact hs
  | succ fuel ih =>
      intro s hs
      match s with
      | [] => simp [pyReplaceFuel]
      | c :: rest =>
          have hxc : x ≠ c := fun he => hs (he ▸ List.mem_cons_self c rest)
          have hxr : x ∉ rest := fun hr => hs (List.mem_cons_of_mem c hr)
          cases hpre : old.isPrefixOf (c :: rest) with
          | true =>
              simp only [pyReplaceFuel, hpre, if_true]
              intro hmem
              rcases List.mem_append.mp hmem with h1 | h1
              · exact hnew h1
              · exact ih (rest.drop (old.length - 1))
                  (fun hd => hxr (List.mem_of_mem_drop hd)) h1
          | false =>
              simp only [pyReplaceFuel, hpre, Bool.false_eq_true, if_false]
              intro hmem
              rcases List.mem_cons.mp hmem with h1 | h1
              · exact hxc h1
              · exact ih rest hxr h1

theorem dropWhile_head_not (p : Char → Bool) :
    ∀ (l : List Char) (a : Char) (w : List Char),
      l.dropWhile p = a :: w → p a = false := by
  intro l
  induction l with
  | nil => intro a w h; simp [List.dropWhile] at h
  | cons b bs ih =>
      intro a w h
      rw [List.dropWhile_cons] at h
      by_cases hb : p b
      · rw [if_pos hb] at h
        exact ih a w h
      · rw [if_neg hb] at h
        cases h
        simpa using hb

theorem dropWhile_dropWhile (p : Char → Bool) (l : List Char) :
    (l.dropWhile p).dropWhile p = l.dropWhile p := by
  cases h : l.dropWhile p with
  | nil => simp
  | cons a w =>
      have ha := dropWhile_head_not p l a w h
      simp [List.dropWhile_cons, ha]

theorem pyStrip_prefix_drop (s : List Char) :
    pyStrip s <+: s.dropWhile isPySpace := by
  have h : ((s.dropWhile isPySpace).reverse.dropWhile isPySpace) <:+
      (s.dropWhile isPySpace).reverse := List.dropWhile_suffix isPySpace
  have h2 := ( List.reverse_prefix).mpr h
  rwa [List.reverse_reverse] at h2

theorem pyStrip_isInfix (s : List Char) : pyStrip s <:+: s :=
  (pyStrip_prefix_drop s).isInfix.trans (List.dropWhile_suffix isPySpace).isInfix

theorem pyStrip_dropWhile_eq (s : List Char) :
    (pyStrip s).dropWhile isPySpace = pyStrip s := by
  cases h : pyStrip s with
  | nil => simp
  | cons a w =>
      have hp := pyStrip_prefix_drop s
      rw [h] at hp
      obtain ⟨t, ht⟩ := hp
      have hd : s.dropWhile isPySpace = a :: (w ++ t) := by
        rw [← ht]; simp
      have ha : isPySpace a = false := dropWhile_head_not isPySpace s a (w ++ t) hd
      simp [List.dropWhile_cons, ha]

theorem pyStrip_idem (s : List Char) : pyStrip (pyStrip s) = pyStrip s := by
  have key : (pyStrip s).reverse.dropWhile isPySpace = (pyStrip s).reverse := by
    have hrev : (pyStrip s).reverse =
        (s.dropWhile isPySpace).reverse.dropWhile isPySpace := by
      unfold pyStrip
      rw [List.reverse_reverse]
    rw [hrev, dropWhile_dropWhile]
  show (((pyStrip s).dropWhile isPySpace).reverse.dropWhile isPySpace).reverse = pyStrip s
  rw [pyStrip_dropWhile_eq, key, List.reverse_reverse]

/-! ## Evaluation lemmas for the pipeline functions -/

theorem contextBlocks_length (i : Nat) (rs : List ScoredResult) :
    (contextBlocks i rs).length = rs.length := by
  induction rs generalizing i with
  | nil => rfl
  | cons r rest ih => simp [contextBlocks, ih]

theorem contextBlocks_getElem? (i n : Nat) (rs : List ScoredResult) :
    (contextBlocks i rs)[n]? =
      rs[n]?.map (fun r => context_piece (i + n) r.text r.score) := by
  induction rs generalizing i n with
  | nil => simp [contextBlocks]
  | cons r rest ih =>
      cases n with
      | zero => simp [contextBlocks]
      | succ m =>
          have harith : i + 1 + m = i + (m + 1) := by omega
          simp only [contextBlocks, List.getElem?_cons_succ, ih (i + 1) m, harith]

theorem fillPrompt_eq (c q : List Char) :
    fillPrompt c q =
      Except.ok (prompt_before_context ++
        (c ++ (prompt_between ++ (q ++ prompt_after_question)))) := rfl

theorem format_medical_response_eq_strip (s : List Char) :
    format_medical_response s =
      pyStrip (pyReplace "\n\n\n".data "\n\n".data
        (pyReplace "*".data [] (pyReplace "**".data [] s))) := by
  unfold format_medical_response
  have h0 : pyStrip [] = ([] : List Char) := rfl
  simp [h0, List.isSuffixOf_nil_left]

theorem generate_ok_eq (query : List Char) (results : List ScoredResult)
    (completion : List Char → Except PyErr (List Char)) :
    generate_medical_response query (Except.ok results) completion =
      match completion (promptFor results query) with
      | Except.error _ => apology_response
      | Except.ok response => format_medical_response response := rfl

theorem singleton_infix_of_mem {x : Char} {s : List Char} (h : x ∈ s) :
    [x] <:+: s := by
  obtain ⟨l1, l2, rfl⟩ := List.mem_iff_append.mp h
  exact ⟨l1, l2, by simp⟩

theorem pyReplace_eq_self (old new s : List Char) (h : ¬ old <:+: s) :
    pyReplace old new s = s :=
  pyReplaceFuel_eq_self old new s.length s h

theorem context_piece_eq_specBlock (n : Nat) (r : ScoredResult) :
    context_piece n r.text r.score = specBlock n r := by
  unfold context_piece specBlock
  rw [List.append_assoc _ "]\n".data, List.append_assoc _ "]".data]
  exact congrArg (fun z => _ ++ z)
    (show "]\n".data ++ pyStrip r.text = "]".data ++ '\n' :: pyStrip r.text from rfl)

/-! ## Claims -/

/-- Claim C1 (code bug): the question `"What are the symptoms of
pneumonia?"` is non-empty after trimming and passes the keyword
validator, yet the `/query` handler returns the 500 error payload — not
the `\x7bquestion, answer\x7d` success payload — because app.py line 80
passes 4 positional arguments to the 2-parameter
`generate_medical_response`, so the call raises `TypeError` inside the
handler's `try` even when retrieval and the completion endpoint would
both succeed. -/
theorem claim_C1_pneumonia_route :
    (pyStrip "What are the symptoms of pneumonia?".data).isEmpty = false ∧
    validate_medical_query (pyStrip "What are the symptoms of pneumonia?".data) = true ∧
    (generate_call_site_args == generate_def_params) = false ∧
    query_route "What are the symptoms of pneumonia?".data
        (Except.ok demoResults) (fun _ => Except.ok "Rest and antibiotics.".data) =
      QueryResponse.serverError "Internal server error".data := by
  exact ⟨by decide, by decide, by decide, by decide⟩

/-- Claim C2: for every context string and question string, filling the
static template succeeds and the result contains both the full context
and the full question as verbatim contiguous substrings. -/
theorem claim_C2_compose_verbatim (context question : List Char) :
    ∃ p, fillPrompt context question = Except.ok p ∧
      context <:+: p ∧ question <:+: p := by
  refine ⟨_, fillPrompt_eq context question, ?_, ?_⟩
  · exact ⟨prompt_before_context,
      prompt_between ++ (question ++ prompt_after_question), by simp⟩
  · exact ⟨prompt_before_context ++ (context ++ prompt_between),
      prompt_after_question, by simp⟩

/-- Witness for C2 at concrete context and question strings. -/
theorem claim_C2_witness :
    ∃ p, fillPrompt "some retrieved context".data "What is pain?".data = Except.ok p ∧
      "some retrieved context".data <:+: p ∧ "What is pain?".data <:+: p :=
  claim_C2_compose_verbatim "some retrieved context".data "What is pain?".data

/-- Claim C3 counterexample: the spec's example input `"**Hello**"` +
four newlines + `"World"` maps to `"Hello"` + THREE newlines + `"World"`,
not the claimed two: `str.replace("\n\n\n", "\n\n")` is a single
left-to-right pass, not a full collapse of longer runs. -/
theorem claim_C3_counterexample :
    format_medical_response "**Hello**\n\n\n\nWorld".data = "Hello\n\n\nWorld".data ∧
    ("Hello\n\n\nWorld".data == "Hello\n\nWorld".data) = false := by
  exact ⟨by decide, by decide⟩

/-- Claim C3 (amended): `format_medical_response` removes every `*`
character, trims leading/trailing whitespace, and replaces each
non-overlapping occurrence of three consecutive newlines by two in one
left-to-right pass (so four newlines become three); the example maps to
`"Hello"` + three newlines + `"World"`. -/
theorem claim_C3_formatting (s : List Char) :
    containsSub "*".data (format_medical_response s) = false ∧
    pyStrip (format_medical_response s) = format_medical_response s ∧
    format_medical_response "**Hello**\n\n\n\nWorld".data = "Hello\n\n\nWorld".data := by
  refine ⟨?_, ?_, by decide⟩
  · have h2 : '*' ∉ pyReplace "*".data [] (pyReplace "**".data [] s) :=
      star_not_mem_replaceStar _ _ le_rfl
    have h3 : '*' ∉ pyReplace "\n\n\n".data "\n\n".data
        (pyReplace "*".data [] (pyReplace "**".data [] s)) :=
      not_mem_pyReplaceFuel '*' "\n\n\n".data "\n\n".data (by decide) _ _ h2
    have h4 : '*' ∉ format_medical_response s := by
      rw [format_medical_response_eq_strip]
      exact fun hm => h3 ((pyStrip_isInfix _).subset hm)
    cases hb : containsSub "*".data (format_medical_response s) with
    | false => rfl
    | true =>
        exact absurd
          (((containsSub_iff_isInfix _ _).mp hb).subset (by decide)) h4
  · rw [format_medical_response_eq_strip]
    exact pyStrip_idem _

/-- Witness for C3 at a concrete markdown-decorated input. -/
theorem claim_C3_witness :
    containsSub "*".data (format_medical_response "**bold** statement".data) = false :=
  (claim_C3_formatting "**bold** statement".data).1

/-- Claim C4 counterexample: `format_medical_response` is not idempotent
on all inputs: `"a"` + four newlines + `"b"` maps to `"a"` + three
newlines + `"b"`, which a second application maps to `"a"` + two
newlines + `"b"`. -/
theorem claim_C4_counterexample :
    format_medical_response "a\n\n\n\nb".data = "a\n\n\nb".data ∧
    format_medical_response "a\n\n\nb".data = "a\n\nb".data ∧
    ("a\n\n\nb".data == "a\n\nb".data) = false := by
  exact ⟨by decide, by decide, by decide⟩

/-- Claim C4 (amended): `format_medical_response` is idempotent on
already-clean text: on every input containing no `*` and no three
consecutive newlines, applying it twice equals applying it once. -/
theorem claim_C4_idempotent_on_clean (s : List Char)
    (hstar : containsSub "*".data s = false)
    (hnl : containsSub "\n\n\n".data s = false) :
    format_medical_response (format_medical_response s) = format_medical_response s := by
  have hstarP : ¬ ("*".data <:+: s) := by
    intro h
    rw [← containsSub_iff_isInfix] at h
    rw [h] at hstar
    exact Bool.noConfusion hstar
  have hnlP : ¬ ("\n\n\n".data <:+: s) := by
    intro h
    rw [← containsSub_iff_isInfix] at h
    rw [h] at hnl
    exact Bool.noConfusion hnl
  have hstarMem : '*' ∉ s := fun hm => hstarP (singleton_infix_of_mem hm)
  have hssP : ¬ ("**".data <:+: s) := fun h => hstarMem (h.subset (by decide))
  have estrip : format_medical_response s = pyStrip s := by
    rw [format_medical_response_eq_strip,
      pyReplace_eq_self "**".data [] s hssP,
      pyReplace_eq_self "*".data [] s hstarP,
      pyReplace_eq_self "\n\n\n".data "\n\n".data s hnlP]
  have hstarP2 : ¬ ("*".data <:+: pyStrip s) :=
    fun h => hstarP (h.trans (pyStrip_isInfix s))
  have hnlP2 : ¬ ("\n\n\n".data <:+: pyStrip s) :=
    fun h => hnlP (h.trans (pyStrip_isInfix s))
  have hssP2 : ¬ ("**".data <:+: pyStrip s) :=
    fun h => hstarP2 (singleton_infix_of_mem (h.subset (by decide)))
  have estrip2 : format_medical_response (pyStrip s) = pyStrip (pyStrip s) := by
    rw [format_medical_response_eq_strip,
      pyReplace_eq_self "**".data [] _ hssP2,
      pyReplace_eq_self "*".data [] _ hstarP2,
      pyReplace_eq_self "\n\n\n".data "\n\n".data _ hnlP2]
  rw [estrip, estrip2, pyStrip_idem]

/-- Witness for C4 at a concrete already-clean input. -/
theorem claim_C4_witness :
    format_medical_response (format_medical_response "Hello\n\nWorld".data) =
      format_medical_response "Hello\n\nWorld".data :=
  claim_C4_idempotent_on_clean "Hello\n\nWorld".data (by decide) (by decide)

/-- Claim C5: for non-empty search results the retrieval output is the
fixed divider followed by the double-newline join of the formatted
blocks; there is exactly one block per result, and the block at 0-based
position `n` matches the spec's `"[Source <n+1> - Relevance: <2-decimal
score>]\n<trimmed text>"` pattern, so ranks increase strictly from 1. -/
theorem claim_C5_block_format (results : List ScoredResult)
    (h : results.isEmpty = false) :
    retrieve_relevant_context results =
      retrieval_divider ++ List.intercalate "\n\n".data (contextBlocks 1 results) ∧
    (contextBlocks 1 results).length = results.length ∧
    (∀ n : Nat, (contextBlocks 1 results)[n]? = results[n]?.map (specBlock (n + 1))) := by
  refine ⟨?_, contextBlocks_length 1 results, ?_⟩
  · unfold retrieve_relevant_context
    rw [h]
    simp
  · intro n
    rw [contextBlocks_getElem?]
    cases hr : results[n]? with
    | none => rfl
    | some r =>
        have hfun : (fun rr : ScoredResult => context_piece (1 + n) rr.text rr.score)
            = specBlock (n + 1) := by
          funext rr
          rw [Nat.add_comm 1 n]
          exact context_piece_eq_specBlock (n + 1) rr
        rw [hfun]

/-- Witness for C5 at the concrete two-result list. -/
theorem claim_C5_witness :
    retrieve_relevant_context demoResults =
      retrieval_divider ++ List.intercalate "\n\n".data (contextBlocks 1 demoResults) ∧
    (contextBlocks 1 demoResults)[0]? = demoResults[0]?.map (specBlock 1) ∧
    (contextBlocks 1 demoResults)[1]? = demoResults[1]?.map (specBlock 2) :=
  ⟨(claim_C5_block_format demoResults (by decide)).1,
   (claim_C5_block_format demoResults (by decide)).2.2 0,
   (claim_C5_block_format demoResults (by decide)).2.2 1⟩

/-- Claim C6: `validate_medical_query` returns true exactly when the
lower-cased query contains one of the fixed indicator substrings; the
spec's two examples evaluate as stated, and the function is total. -/
theorem claim_C6_validate_iff :
    (∀ query : List Char,
      validate_medical_query query = true ↔
        ∃ ind ∈ medical_indicators, ind <:+: pyLower query) ∧
    validate_medical_query "What causes fever?".data = true ∧
    validate_medical_query "What\x27s the weather?".data = false := by
  refine ⟨?_, by decide, by decide⟩
  intro query
  simp only [validate_medical_query, List.any_eq_true]
  constructor
  · rintro ⟨ind, hmem, hc⟩
    exact ⟨ind, hmem, (containsSub_iff_isInfix ind _).mp hc⟩
  · rintro ⟨ind, hmem, hc⟩
    exact ⟨ind, hmem, (containsSub_iff_isInfix ind _).mpr hc⟩

/-- Witness for C6 at the spec's positive example. -/
theorem claim_C6_witness :
    validate_medical_query "What causes fever?".data = true :=
  claim_C6_validate_iff.2.1

/-- Claim C7: zero search results yield exactly the fixed sentinel
string, which is non-empty. -/
theorem claim_C7_empty_sentinel :
    retrieve_relevant_context [] =
      "No relevant medical information found in the knowledge base.".data ∧
    (retrieve_relevant_context []).isEmpty = false := by
  exact ⟨by decide, by decide⟩

/-- Claim C8: when the store holds fewer than `k` chunks, the search
returns them all and the retrieval output has exactly one block per
existing chunk — strictly fewer than `k` — without erroring. -/
theorem claim_C8_fewer_than_k (store : List ScoredResult) (k : Nat)
    (h : store.length < k) :
    similarity_search store k = store ∧
    (contextBlocks 1 (similarity_search store k)).length = store.length ∧
    (contextBlocks 1 (similarity_search store k)).length < k := by
  have htake : similarity_search store k = store :=
    List.take_of_length_le (Nat.le_of_lt h)
  refine ⟨htake, ?_, ?_⟩
  · rw [htake, contextBlocks_length]
  · rw [htake, contextBlocks_length]
    exact h

/-- Witness for C8: a 2-chunk store queried with `top_k = 5`. -/
theorem claim_C8_witness :
    similarity_search demoResults 5 = demoResults ∧
    (contextBlocks 1 (similarity_search demoResults 5)).length = demoResults.length ∧
    (contextBlocks 1 (similarity_search demoResults 5)).length < 5 :=
  claim_C8_fewer_than_k demoResults 5 (by decide)

/-- Claim C9: any failing step inside `generate_medical_response` — a
raised similarity search or a raised completion call — produces the
fixed apology string; the function is total, so no exception reaches
the caller. -/
theorem claim_C9_failure_apology (query : List Char)
    (searchOutcome : Except PyErr (List ScoredResult))
    (completion : List Char → Except PyErr (List Char)) :
    (∀ e, searchOutcome = Except.error e →
      generate_medical_response query searchOutcome completion = apology_response) ∧
    (∀ results e, searchOutcome = Except.ok results →
      completion (promptFor results query) = Except.error e →
      generate_medical_response query searchOutcome completion = apology_response) := by
  constructor
  · intro e he
    subst he
    rfl
  · intro results e hs hc
    subst hs
    rw [generate_ok_eq, hc]

/-- Witness for C9: a raised search and a raised completion both yield
the apology. -/
theorem claim_C9_witness :
    generate_medical_response "a question".data (Except.error PyErr.runtimeError)
        (fun _ => Except.ok "fine".data) = apology_response ∧
    generate_medical_response "a question".data (Except.ok demoResults)
        (fun _ => Except.error PyErr.runtimeError) = apology_response :=
  ⟨(claim_C9_failure_apology "a question".data _ _).1 PyErr.runtimeError rfl,
   (claim_C9_failure_apology "a question".data _ _).2 demoResults PyErr.runtimeError rfl rfl⟩

/-- Claim C10 counterexample: filling the static template via
`str.format` NEVER raises — substituted values are not re-parsed — so
in particular it succeeds on the concrete question `"\x7b"`, and there
is no question on which the fill fails. -/
theorem claim_C10_counterexample :
    exceptIsOk (fillPrompt no_context_sentinel "\x7b".data) = true ∧
    (∀ q c : List Char, exceptIsOk (fillPrompt c q) = true) := by
  constructor
  · rw [fillPrompt_eq]
    rfl
  · intro q c
    rw [fillPrompt_eq]
    rfl

/-- Claim C10 (amended): filling the static template never raises, even
for questions containing curly braces; the question is embedded verbatim
in the prompt, the completion endpoint IS contacted, and its successful
answer is returned formatted. -/
theorem claim_C10_braces_reach_endpoint (query : List Char)
    (results : List ScoredResult)
    (completion : List Char → Except PyErr (List Char)) (answer : List Char)
    (h : completion (promptFor results query) = Except.ok answer) :
    fillPrompt (retrieve_relevant_context results) query =
      Except.ok (promptFor results query) ∧
    query <:+: promptFor results query ∧
    generate_medical_response query (Except.ok results) completion =
      format_medical_response answer := by
  refine ⟨fillPrompt_eq _ _, ?_, ?_⟩
  · exact ⟨prompt_before_context ++ (retrieve_relevant_context results ++ prompt_between),
      prompt_after_question, by simp [promptFor]⟩
  · rw [generate_ok_eq, h]

/-- Witness for C10: a question containing both braces reaches the
endpoint and the answer comes back formatted. -/
theorem claim_C10_witness :
    generate_medical_response "\x7bwhat is pain?\x7d".data (Except.ok demoResults)
        (fun _ => Except.ok "Rest.".data) = format_medical_response "Rest.".data ∧
    "\x7bwhat is pain?\x7d".data <:+:
      promptFor demoResults "\x7bwhat is pain?\x7d".data :=
  ⟨(claim_C10_braces_reach_endpoint "\x7bwhat is pain?\x7d".data demoResults
      (fun _ => Except.ok "Rest.".data) "Rest.".data rfl).2.2,
   (claim_C10_braces_reach_endpoint "\x7bwhat is pain?\x7d".data demoResults
      (fun _ => Except.ok "Rest.".data) "Rest.".data rfl).2.1⟩
